import Mathlib

/-!
Verification development for the Growcoach job-board backend.

The backend stores loosely-typed JSON documents in MongoDB collections
(candidates, companies, admins, admin_notifications, jobs).  We embed the
documents as association lists over a small value type, the collections as
association lists keyed by the document id (Mongo `_id`, rendered as a
string), and each Flask route handler as a pure function from the database
state (plus the request data and a clock value standing for
`datetime.now()`) to a response together with the new database state.

Sources embedded below:
  backend/app/routes/admin.py      (status management, notifications, bulk)
  backend/app/routes/company.py    (profile update, verification request)
  backend/app/routes/candidate.py  (profile update)
  backend/app/routes/job.py        (apply_to_job)
  backend/app/routes/auth.py       (login)
  backend/app/models/models.py     (Candidate.update)
  backend/app/utils/helpers.py     (validate_email, response helpers)
-/

namespace Growcoach

/-- A JSON-ish document value: the backend only ever stores strings,
booleans, timestamps (modelled as a `Nat` clock value) and lists of id
strings in the fields relevant to the verified routes. -/
inductive Val where
  | vStr (s : String)
  | vBool (b : Bool)
  | vNat (n : Nat)
  | vList (l : List String)
deriving DecidableEq, Repr

/-- A Mongo document: an ordered association list of field name / value. -/
abbrev Doc := List (String × Val)

/-- Field lookup, `doc.get(k)` / `doc[k]`: first binding wins. -/
def dget : Doc → String → Option Val
  | [], _ => none
  | (k', v) :: t, k => if k' = k then some v else dget t k

/-- Set one field, Python-dict / Mongo `$set` style: replace the first
binding in place, or append the field at the end if absent. -/
def dset : Doc → String → Val → Doc
  | [], k, v => [(k, v)]
  | (k', v') :: t, k, v => if k' = k then (k, v) :: t else (k', v') :: dset t k v

/-- Apply a whole update document field by field (Mongo `$set` with a
multi-field update document). -/
def dsetMany (d : Doc) (u : Doc) : Doc :=
  u.foldl (fun acc p => dset acc p.1 p.2) d

/-- `doc.get(k, dflt)` for string-valued fields. -/
def getStrD (d : Doc) (k : String) (dflt : String) : String :=
  match dget d k with
  | some (Val.vStr s) => s
  | _ => dflt

/-- `doc.get(k, [])` for list-valued fields (applicant lists). -/
def getListD (d : Doc) (k : String) : List String :=
  match dget d k with
  | some (Val.vList l) => l
  | _ => []

/-- Python truthiness of a stored value (`if doc.get(k):`). -/
def truthy : Val → Bool
  | Val.vStr s => decide (s ≠ "")
  | Val.vBool b => b
  | Val.vNat n => decide (n ≠ 0)
  | Val.vList l => !l.isEmpty

/-- Python truthiness of an optional field (absent fields are falsy). -/
def truthyOpt : Option Val → Bool
  | none => false
  | some v => truthy v

/-- `doc.get(k)` used as a truthy id string (`if candidate_id:`):
returns the id when the field holds a non-empty string. -/
def truthyStr (v : Option Val) : Option String :=
  match v with
  | some (Val.vStr s) => if s = "" then none else some s
  | _ => none

/-- A Mongo collection: documents keyed by their `_id` string. -/
abbrev Coll := List (String × Doc)

/-- `collection.find_one({'_id': k})`: first document with the given id. -/
def findDoc : Coll → String → Option Doc
  | [], _ => none
  | (k', d) :: t, k => if k' = k then some d else findDoc t k

/-- Rewrite the first document with the given id through `f`
(the document-level effect of `update_one`). -/
def modifyFirst : Coll → String → (Doc → Doc) → Coll
  | [], _, _ => []
  | (k', d) :: t, k, f => if k' = k then (k', f d) :: t else (k', d) :: modifyFirst t k f

/-- `collection.update_one({'_id': k}, {'$set': u})`, new collection state. -/
def updateFirst (l : Coll) (k : String) (u : Doc) : Coll :=
  modifyFirst l k (fun d => dsetMany d u)

/-- `result.modified_count` of the same `update_one`: 1 exactly when a
document matched and the `$set` actually changed it. -/
def modifiedCount (l : Coll) (k : String) (u : Doc) : Nat :=
  match findDoc l k with
  | none => 0
  | some d => if dsetMany d u = d then 0 else 1

/-- `collection.delete_one({'_id': k})`: remove the first match. -/
def deleteFirst : Coll → String → Coll
  | [], _ => []
  | (k', d) :: t, k => if k' = k then t else (k', d) :: deleteFirst t k

/-- The relevant persistent state: the five collections the verified
routes read or write. -/
structure DB where
  candidates : Coll := []
  companies : Coll := []
  admins : Coll := []
  notifications : Coll := []
  jobs : Coll := []
deriving DecidableEq, Repr

/-- An HTTP JSON response: status code, the `success` flag of the response
envelope, and the `message`/`error` text carried in the body. -/
structure Resp where
  code : Nat
  ok : Bool
  msg : String
deriving DecidableEq, Repr

/-- `error_response(msg, code)` / `jsonify({'error': msg}), code`. -/
def errResp (c : Nat) (m : String) : Resp := { code := c, ok := false, msg := m }

/-- `success_response(msg)` / a success body with the given message. -/
def okResp (c : Nat) (m : String) : Resp := { code := c, ok := true, msg := m }

/-! ## admin.py: manage_candidate_status (lines 91-119)

`PUT /admin/candidates/<id>/status`.  The whole body is wrapped in
`try/except`; the `exc` argument models a store exception with message
`m` raised inside the `try` (caught and answered with the fixed text
"An unexpected error occurred"). -/

def manage_candidate_status (exc : Option String) (db : DB) (now : Nat)
    (cid : String) (action : Option String) : Resp × DB :=
  match exc with
  | some _ => (errResp 500 "An unexpected error occurred", db)
  | none =>
    match action with
    | none => (errResp 400 "Invalid action. Use \x27block\x27 or \x27unblock\x27", db)
    | some a =>
      if a = "block" ∨ a = "unblock" then
        match findDoc db.candidates cid with
        | none => (errResp 404 "Candidat non trouvé.", db)
        | some _ =>
          let newStatus := if a = "block" then "blocked" else "active"
          let u : Doc := [("status", Val.vStr newStatus), ("updated_at", Val.vNat now)]
          (okResp 200 ("Candidate " ++ newStatus ++ " avec succès"),
            { db with candidates := updateFirst db.candidates cid u })
      else
        (errResp 400 "Invalid action. Use \x27block\x27 or \x27unblock\x27", db)

/-! ## admin.py: manage_company_status (lines 121-161)

`PUT /admin/companies/<id>/status`.  Note the `status_map`: `verify` and
`unverify` both `$set` `status: 'active'` in addition to `verified`. -/

/-- `status_map[action]` from the source, verbatim. -/
def status_map (a : String) : Doc :=
  if a = "verify" then [("verified", Val.vBool true), ("status", Val.vStr "active")]
  else if a = "unverify" then [("verified", Val.vBool false), ("status", Val.vStr "active")]
  else if a = "block" then [("status", Val.vStr "blocked")]
  else [("status", Val.vStr "active")]

def manage_company_status (db : DB) (now : Nat)
    (cid : String) (action : Option String) : Resp × DB :=
  match action with
  | none => (errResp 400 "Invalid action. Use one of: verify, unverify, block, unblock", db)
  | some a =>
    if a = "verify" ∨ a = "unverify" ∨ a = "block" ∨ a = "unblock" then
      match findDoc db.companies cid with
      | none => (errResp 404 "Entreprise non trouvée.", db)
      | some _ =>
        let u : Doc := status_map a ++ [("updated_at", Val.vNat now)]
        (okResp 200 ("Entreprise " ++ a ++ " avec succès"),
          { db with companies := updateFirst db.companies cid u })
    else
      (errResp 400 "Invalid action. Use one of: verify, unverify, block, unblock", db)

/-! ## admin.py: get_admin_notifications (lines 163-184)

`GET /admin/notifications`: the pending-review inbox.  The route returns
the notifications whose `status` field is absent or not in
`{approved, rejected}` (sorted newest first; the claims below are about
membership, so the sort order is not modelled).  We return the ids. -/

/-- The Mongo filter of `get_admin_notifications`: status absent, or not
one of "approved"/"rejected". -/
def pendingFilter (d : Doc) : Bool :=
  match dget d "status" with
  | none => true
  | some v => decide (v ≠ Val.vStr "approved") && decide (v ≠ Val.vStr "rejected")

def get_admin_notifications (db : DB) : List String :=
  (db.notifications.filter (fun p => pendingFilter p.2)).map Prod.fst

/-! ## admin.py: approve_notification (lines 342-408)

`PUT /admin/notifications/<id>/approve`.  For `candidate_registration` /
`new_candidate` notifications the candidate is set to `active`; only when
`modified_count` is positive is the notification deleted, otherwise a 404
is returned.  `company_registration` analogously also sets
`verified: True`.  Any other type is approved generically: the
notification is just deleted.  When the notification carries a falsy
target id the Python function falls off the end returning `None`, which
Flask turns into a 500; we model that outcome as `errResp 500 ""`. -/

def approve_notification (db : DB) (now : Nat) (nid : String) : Resp × DB :=
  match findDoc db.notifications nid with
  | none => (errResp 404 "Notification non trouvée.", db)
  | some n =>
    let t := getStrD n "type" ""
    if t = "candidate_registration" ∨ t = "new_candidate" then
      match truthyStr (dget n "candidate_id") with
      | some cid =>
        let u : Doc := [("status", Val.vStr "active"), ("updated_at", Val.vNat now)]
        let cands := updateFirst db.candidates cid u
        if modifiedCount db.candidates cid u = 1 then
          (okResp 200 "Candidat approuvé avec succès",
            { db with candidates := cands,
                      notifications := deleteFirst db.notifications nid })
        else
          (errResp 404 "Candidat non trouvé.", { db with candidates := cands })
      | none => (errResp 500 "", db)
    else if t = "company_registration" then
      match truthyStr (dget n "company_id") with
      | some coid =>
        let u : Doc := [("status", Val.vStr "active"), ("verified", Val.vBool true),
                        ("updated_at", Val.vNat now)]
        let cos := updateFirst db.companies coid u
        if modifiedCount db.companies coid u = 1 then
          (okResp 200 "Entreprise approuvée avec succès",
            { db with companies := cos,
                      notifications := deleteFirst db.notifications nid })
        else
          (errResp 404 "Entreprise non trouvée.", { db with companies := cos })
      | none => (errResp 500 "", db)
    else
      (okResp 200 "Notification approuvée avec succès",
        { db with notifications := deleteFirst db.notifications nid })

/-! ## admin.py: reject_notification (lines 410-454)

`PUT /admin/notifications/<id>/reject`.  Unlike `approve_notification`,
the account update's `modified_count` is never inspected: whatever
happens to the account (even if it does not exist), the notification is
deleted and the route answers 200. -/

def reject_notification (db : DB) (now : Nat) (nid : String) : Resp × DB :=
  match findDoc db.notifications nid with
  | none => (errResp 404 "Notification non trouvée.", db)
  | some n =>
    let t := getStrD n "type" ""
    let db1 :=
      if t = "candidate_registration" ∨ t = "new_candidate" then
        match truthyStr (dget n "candidate_id") with
        | some cid =>
          let u : Doc := [("status", Val.vStr "rejected"), ("updated_at", Val.vNat now)]
          { db with candidates := updateFirst db.candidates cid u }
        | none => db
      else if t = "company_registration" then
        match truthyStr (dget n "company_id") with
        | some coid =>
          let u : Doc := [("status", Val.vStr "rejected"), ("verified", Val.vBool false),
                          ("updated_at", Val.vNat now)]
          { db with companies := updateFirst db.companies coid u }
        | none => db
      else db
    (okResp 200 "Notification rejetée avec succès",
      { db1 with notifications := deleteFirst db1.notifications nid })

/-! ## candidate.py: update_candidate_profile (lines 47-119) with
models/models.py: Candidate.update (lines 69-83)

`PUT /candidate/update` (JSON branch).  The handler sanitizes the body
(`bleach.clean` on strings — the identity on the plain text relevant
here, modelled as such), pops exactly `email`, `password`, `_id`,
`created_at`, `updated_at`, and hands everything else to
`Candidate.update`, which stamps `updated_at` and `$set`s the document.
`status` is NOT among the popped keys. -/

/-- `bleach.clean`, modelled as the identity: it escapes HTML markup and
leaves markup-free text (all field values considered here) unchanged. -/
def bleachClean (s : String) : String := s

/-- `sanitize_input` of helpers.py (candidate variant): clean every
string value, leave other values as they are. -/
def sanitizeDoc (f : String → String) (d : Doc) : Doc :=
  d.map (fun p => (p.1, match p.2 with | Val.vStr s => Val.vStr (f s) | v => v))

/-- The keys popped by both profile-update handlers before the `$set`. -/
def protectedKeys : List String := ["email", "password", "_id", "created_at", "updated_at"]

def stripProtected (d : Doc) : Doc :=
  d.filter (fun p => !(protectedKeys.contains p.1))

def update_candidate_profile (db : DB) (now : Nat) (uid : String) (body : Doc) : Resp × DB :=
  if body = [] then (errResp 400 "Données requises.", db)
  else
    let data := stripProtected (sanitizeDoc bleachClean body)
    let u := data ++ [("updated_at", Val.vNat now)]
    let db2 := { db with candidates := updateFirst db.candidates uid u }
    if modifiedCount db.candidates uid u = 1 then
      (okResp 200 "Profil mis à jour avec succès", db2)
    else
      (errResp 500 "Échec de la mise à jour du profil.", db2)

/-! ## company.py: update_company_profile (lines 75-138)

`PUT /company/update` (JSON branch).  Same popping of exactly the five
protected keys, then a direct `update_one` with `$set` on the companies
collection; `status` and `verified` are not popped.  This route's
`sanitize_input` (defined in company.py) strips whitespace from
strings. -/

/-- `str.strip()` on every string value (company.py sanitize_input):
drop whitespace from both ends. -/
def pyStrip (s : String) : String :=
  String.mk (((s.toList.dropWhile Char.isWhitespace).reverse.dropWhile
    Char.isWhitespace).reverse)

def update_company_profile (db : DB) (uid : String) (body : Doc) : Resp × DB :=
  if body = [] then (errResp 400 "Données requises.", db)
  else
    let data := stripProtected (sanitizeDoc pyStrip body)
    let db2 := { db with companies := updateFirst db.companies uid data }
    if modifiedCount db.companies uid data = 1 then
      (okResp 200 "Profil mis à jour avec succès", db2)
    else
      (errResp 500 "Échec de la mise à jour du profil.", db2)

/-! ## job.py: apply_to_job (lines 55-79)

`POST /job/<id>/apply`.  The duplicate check reads
`job.get('applications', [])`; the write is an `$addToSet` on the same
field.  The `except` branch returns `jsonify({'error': str(e)}), 500` —
the raw exception text, modelled by the `exc` argument. -/

/-- Mongo `$addToSet`: append when absent, leave the array unchanged when
present; create a one-element array when the field is missing.  (On a
non-array field Mongo raises; that case is unreachable in the verified
scenarios and is left as the identity.) -/
def addToSet (d : Doc) (k : String) (x : String) : Doc :=
  match dget d k with
  | some (Val.vList l) => if x ∈ l then d else dset d k (Val.vList (l ++ [x]))
  | none => dset d k (Val.vList [x])
  | some _ => d

def apply_to_job (exc : Option String) (db : DB) (jid : String)
    (candidate_id : Option String) : Resp × DB :=
  match exc with
  | some m => (errResp 500 m, db)
  | none =>
    match candidate_id with
    | none => (errResp 400 "Missing candidate_id", db)
    | some cid =>
      if cid = "" then (errResp 400 "Missing candidate_id", db)
      else
        match findDoc db.jobs jid with
        | none => (errResp 404 "Offre non trouvée.", db)
        | some job =>
          if cid ∈ getListD job "applications" then
            (errResp 400 "Candidature déjà envoyée.", db)
          else
            (okResp 200 "Candidature envoyée avec succès.",
              { db with jobs := modifyFirst db.jobs jid (fun d => addToSet d "applications" cid) })

/-! ## company.py: request_verification (lines 209-249)

`POST /company/request-verification`.  Rejects when the company is
already verified, then when an unread `verification_request`
notification for the same company already exists; otherwise inserts a
new notification (`newId` models the fresh Mongo `_id`). -/

/-- The duplicate-request lookup: `find_one` on admin_notifications with
`company_id`, `type: 'verification_request'`, `unread: True`. -/
def findPendingVerif (l : Coll) (uid : String) : Option (String × Doc) :=
  l.find? (fun p =>
    decide (dget p.2 "company_id" = some (Val.vStr uid)) &&
    decide (dget p.2 "type" = some (Val.vStr "verification_request")) &&
    decide (dget p.2 "unread" = some (Val.vBool true)))

def request_verification (db : DB) (now : Nat) (newId : String) (uid : String) : Resp × DB :=
  match findDoc db.companies uid with
  | none => (errResp 404 "Entreprise non trouvée.", db)
  | some c =>
    if truthyOpt (dget c "verified") then
      (errResp 400 "Entreprise déjà vérifiée.", db)
    else if (findPendingVerif db.notifications uid).isSome then
      (errResp 400 "Demande de vérification déjà en cours.", db)
    else
      let n : Doc :=
        [("text", Val.vStr (getStrD c "company_name" "" ++ " a fait une demande de vérification.")),
         ("time", Val.vNat now),
         ("unread", Val.vBool true),
         ("type", Val.vStr "verification_request"),
         ("company_id", Val.vStr uid),
         ("company_name", Val.vStr (getStrD c "company_name" ""))]
      (okResp 200 "Demande de vérification envoyée avec succès.",
        { db with notifications := db.notifications ++ [(newId, n)] })

/-! ## auth.py: login (lines 46-112) with helpers.py: validate_email
(lines 36-39)

`POST /auth/login`.  After the presence and email-format checks the
route tries candidates, then companies, then admins, in that order; a
collection is consulted only through `find_one({'email': ...})` and
`check_password_hash`.  No `status` or `verified` field is ever read.
`check_password_hash` is delegated to werkzeug and modelled as an
abstract `chk storedHash password` predicate. -/

/-- A character of the regex class `[a-zA-Z0-9._%+-]` (ASCII, as in
Python's `re`). -/
def isLocalChar (c : Char) : Bool :=
  c.isAlphanum || c = '.' || c = '_' || c = '%' || c = '+' || c = '-'

/-- A character of the regex class `[a-zA-Z0-9.-]`. -/
def isDomainChar (c : Char) : Bool :=
  c.isAlphanum || c = '.' || c = '-'

/-- Split a character list at the first occurrence of `c`. -/
def splitAtChar (c : Char) : List Char → Option (List Char × List Char)
  | [] => none
  | x :: t =>
    if x = c then some ([], t)
    else (splitAtChar c t).map (fun p => (x :: p.1, p.2))

/-- `validate_email` of helpers.py: the anchored regex
`[a-zA-Z0-9._%+-]+ @ [a-zA-Z0-9.-]+ . [a-zA-Z]+(len>=2) $`.  Both
character classes exclude `@`, so a match splits the string at its only
`@`; the alpha block after the final dot must have length at least 2,
and the domain part before that dot must be non-empty. -/
def validate_email (s : String) : Bool :=
  match splitAtChar '@' s.toList with
  | none => false
  | some (loc, rest) =>
    let sp := rest.reverse.span Char.isAlpha
    !loc.isEmpty && loc.all isLocalChar &&
    decide (2 ≤ sp.1.length) &&
    (match sp.2 with
     | '.' :: arev => !arev.isEmpty && arev.all isDomainChar
     | _ => false)

/-- `collection.find_one({'email': email})`: first document (in insertion
order) whose `email` field equals the given string. -/
def findByEmail (l : Coll) (email : String) : Option (String × Doc) :=
  l.find? (fun p => decide (dget p.2 "email" = some (Val.vStr email)))

/-- The outcome of `login`: an access token for a role and account id,
or an error response. -/
inductive LoginResult where
  | token (role : String) (userId : String)
  | failure (code : Nat) (msg : String)
deriving DecidableEq, Repr

def login (db : DB) (chk : String → String → Bool)
    (email pw : String) : LoginResult :=
  if email = "" || pw = "" then
    LoginResult.failure 400 "L\x27e-mail et le mot de passe sont requis."
  else if !validate_email email then
    LoginResult.failure 400 "Format d\x27e-mail invalide."
  else
    match findByEmail db.candidates email with
    | some (cid, c) =>
      if chk (getStrD c "password" "") pw then LoginResult.token "candidate" cid
      else loginCompanyAdmin db chk email pw
    | none => loginCompanyAdmin db chk email pw
where
  /-- The company- and admin-collection fallthrough of `login`. -/
  loginCompanyAdmin (db : DB) (chk : String → String → Bool)
      (email pw : String) : LoginResult :=
    match findByEmail db.companies email with
    | some (coid, co) =>
      if chk (getStrD co "password" "") pw then LoginResult.token "company" coid
      else loginAdminOnly db chk email pw
    | none => loginAdminOnly db chk email pw
  /-- The admin-collection fallthrough of `login`. -/
  loginAdminOnly (db : DB) (chk : String → String → Bool)
      (email pw : String) : LoginResult :=
    match findByEmail db.admins email with
    | some (aid, a) =>
      if chk (getStrD a "password" "") pw then LoginResult.token "admin" aid
      else LoginResult.failure 401 "E-mail ou mot de passe incorrect."
    | none => LoginResult.failure 401 "E-mail ou mot de passe incorrect."

/-! ## admin.py: bulk_approve_notifications (lines 528-596) and
bulk_reject_notifications (lines 598-666)

`PUT /admin/notifications/bulk-approve` / `bulk-reject`.  An empty id
list is rejected up front with a 400 error body that carries no per-id
results and no counts.  Otherwise each id is processed inside its own
`try/except` (modelled by the per-id exception oracle `excOf`; a raised
exception contributes a failed item whose `error` is `str(e)`); the
bulk routes mark the notification `status` instead of deleting it.
Only the exact type strings `candidate_registration` /
`company_registration` update an account here. -/

/-- One entry of the per-id `results` list of the bulk routes. -/
structure ItemResult where
  nid : String
  st : String
  err : Option String
deriving DecidableEq, Repr

/-- The response of a bulk route: either the 400 error body (which has
no counts and no results), or the 200 body with the aggregate counts and
the per-id results. -/
inductive BulkResp where
  | failure (code : Nat) (msg : String)
  | success (okCount failedCount : Nat) (results : List ItemResult)
deriving DecidableEq, Repr

/-- Accumulated loop state of a bulk route. -/
structure BulkAcc where
  db : DB
  okCount : Nat
  failCount : Nat
  results : List ItemResult
deriving Repr

/-- One iteration of the bulk-approve loop: the per-id `try` body. -/
def bulkApproveItem (now : Nat) (excOf : String → Option String)
    (db : DB) (nid : String) : DB × ItemResult × Bool :=
  match excOf nid with
  | some m => (db, ⟨nid, "failed", some m⟩, false)
  | none =>
    match findDoc db.notifications nid with
    | none => (db, ⟨nid, "failed", some "Notification non trouvée"⟩, false)
    | some n =>
      let t := getStrD n "type" ""
      let db1 :=
        if t = "candidate_registration" then
          match truthyStr (dget n "candidate_id") with
          | some cid =>
            let u : Doc := [("status", Val.vStr "active"), ("updated_at", Val.vNat now)]
            { db with candidates := updateFirst db.candidates cid u }
          | none => db
        else if t = "company_registration" then
          match truthyStr (dget n "company_id") with
          | some coid =>
            let u : Doc := [("status", Val.vStr "active"), ("verified", Val.vBool true),
                            ("updated_at", Val.vNat now)]
            { db with companies := updateFirst db.companies coid u }
          | none => db
        else db
      let u2 : Doc := [("status", Val.vStr "approved"), ("approved_at", Val.vNat now),
                       ("updated_at", Val.vNat now)]
      ({ db1 with notifications := updateFirst db1.notifications nid u2 },
       ⟨nid, "approved", none⟩, true)

/-- The bulk-approve loop over the submitted ids. -/
def bulkApproveGo (now : Nat) (excOf : String → Option String)
    (db : DB) : List String → BulkAcc
  | [] => ⟨db, 0, 0, []⟩
  | nid :: rest =>
    let step := bulkApproveItem now excOf db nid
    let acc := bulkApproveGo now excOf step.1 rest
    ⟨acc.db, acc.okCount + (if step.2.2 then 1 else 0),
      acc.failCount + (if step.2.2 then 0 else 1), step.2.1 :: acc.results⟩

def bulk_approve_notifications (db : DB) (now : Nat)
    (excOf : String → Option String) (ids : List String) : BulkResp × DB :=
  if ids.isEmpty then (BulkResp.failure 400 "Aucune notification sélectionnée.", db)
  else
    let acc := bulkApproveGo now excOf db ids
    (BulkResp.success acc.okCount acc.failCount acc.results, acc.db)

/-- One iteration of the bulk-reject loop. -/
def bulkRejectItem (now : Nat) (excOf : String → Option String)
    (db : DB) (nid : String) : DB × ItemResult × Bool :=
  match excOf nid with
  | some m => (db, ⟨nid, "failed", some m⟩, false)
  | none =>
    match findDoc db.notifications nid with
    | none => (db, ⟨nid, "failed", some "Notification non trouvée"⟩, false)
    | some n =>
      let t := getStrD n "type" ""
      let db1 :=
        if t = "candidate_registration" then
          match truthyStr (dget n "candidate_id") with
          | some cid =>
            let u : Doc := [("status", Val.vStr "rejected"), ("updated_at", Val.vNat now)]
            { db with candidates := updateFirst db.candidates cid u }
          | none => db
        else if t = "company_registration" then
          match truthyStr (dget n "company_id") with
          | some coid =>
            let u : Doc := [("status", Val.vStr "rejected"), ("verified", Val.vBool false),
                            ("updated_at", Val.vNat now)]
            { db with companies := updateFirst db.companies coid u }
          | none => db
        else db
      let u2 : Doc := [("status", Val.vStr "rejected"), ("rejected_at", Val.vNat now),
                       ("updated_at", Val.vNat now)]
      ({ db1 with notifications := updateFirst db1.notifications nid u2 },
       ⟨nid, "rejected", none⟩, true)

/-- The bulk-reject loop over the submitted ids. -/
def bulkRejectGo (now : Nat) (excOf : String → Option String)
    (db : DB) : List String → BulkAcc
  | [] => ⟨db, 0, 0, []⟩
  | nid :: rest =>
    let step := bulkRejectItem now excOf db nid
    let acc := bulkRejectGo now excOf step.1 rest
    ⟨acc.db, acc.okCount + (if step.2.2 then 1 else 0),
      acc.failCount + (if step.2.2 then 0 else 1), step.2.1 :: acc.results⟩

def bulk_reject_notifications (db : DB) (now : Nat)
    (excOf : String → Option String) (ids : List String) : BulkResp × DB :=
  if ids.isEmpty then (BulkResp.failure 400 "Aucune notification sélectionnée.", db)
  else
    let acc := bulkRejectGo now excOf db ids
    (BulkResp.success acc.okCount acc.failCount acc.results, acc.db)

/-! ## Basic lemmas about documents and collections -/

theorem dget_dset_self (d : Doc) (k : String) (v : Val) :
    dget (dset d k v) k = some v := by
  induction d with
  | nil => simp [dset, dget]
  | cons p t ih =>
    by_cases h : p.1 = k
    · simp [dset, dget, h]
    · simp [dset, dget, h, ih]

theorem dget_dset_ne (d : Doc) (k k' : String) (v : Val) (h : k' ≠ k) :
    dget (dset d k v) k' = dget d k' := by
  have hkk : k ≠ k' := fun hc => h hc.symm
  induction d with
  | nil => simp [dset, dget, hkk]
  | cons p t ih =>
    obtain ⟨a, w⟩ := p
    by_cases h1 : a = k
    · subst h1
      simp [dset, dget, hkk]
    · by_cases h2 : a = k'
      · subst h2
        simp [dset, dget, h1]
      · simp [dset, dget, h1, h2, ih]

theorem dget_dsetMany_notMem (d : Doc) (u : Doc) (k : String)
    (h : ∀ p ∈ u, p.1 ≠ k) : dget (dsetMany d u) k = dget d k := by
  induction u generalizing d with
  | nil => rfl
  | cons p t ih =>
    have step : dsetMany d (p :: t) = dsetMany (dset d p.1 p.2) t := rfl
    rw [step, ih (dset d p.1 p.2) (fun q hq => h q (List.mem_cons_of_mem _ hq))]
    exact dget_dset_ne d p.1 k p.2 (Ne.symm (h p (List.mem_cons_self _ _)))

theorem findDoc_modifyFirst_self (l : Coll) (k : String) (f : Doc → Doc) :
    findDoc (modifyFirst l k f) k = (findDoc l k).map f := by
  induction l with
  | nil => simp [modifyFirst, findDoc]
  | cons p t ih =>
    by_cases h : p.1 = k
    · simp [modifyFirst, findDoc, h]
    · simp [modifyFirst, findDoc, h, ih]

theorem findDoc_modifyFirst_ne (l : Coll) (k k' : String) (f : Doc → Doc)
    (h : k' ≠ k) : findDoc (modifyFirst l k f) k' = findDoc l k' := by
  have hkk : k ≠ k' := fun hc => h hc.symm
  induction l with
  | nil => simp [modifyFirst, findDoc]
  | cons p t ih =>
    obtain ⟨a, d⟩ := p
    by_cases h1 : a = k
    · subst h1
      simp [modifyFirst, findDoc, hkk]
    · by_cases h2 : a = k'
      · subst h2
        simp [modifyFirst, findDoc, h1]
      · simp [modifyFirst, findDoc, h1, h2, ih]

theorem modifyFirst_not_found (l : Coll) (k : String) (f : Doc → Doc)
    (h : findDoc l k = none) : modifyFirst l k f = l := by
  induction l with
  | nil => rfl
  | cons p t ih =>
    by_cases h1 : p.1 = k
    · simp [findDoc, h1] at h
    · simp [findDoc, h1] at h
      simp [modifyFirst, h1, ih h]

theorem deleteFirst_not_found (l : Coll) (k : String)
    (h : findDoc l k = none) : deleteFirst l k = l := by
  induction l with
  | nil => rfl
  | cons p t ih =>
    by_cases h1 : p.1 = k
    · simp [findDoc, h1] at h
    · simp [findDoc, h1] at h
      simp [deleteFirst, h1, ih h]

theorem findDoc_eq_none_of_not_mem (l : Coll) (k : String)
    (h : k ∉ l.map Prod.fst) : findDoc l k = none := by
  induction l with
  | nil => rfl
  | cons p t ih =>
    obtain ⟨a, d⟩ := p
    simp only [List.map_cons, List.mem_cons] at h
    push_neg at h
    have h1 : a ≠ k := fun hc => h.1 hc.symm
    simp [findDoc, h1, ih h.2]

theorem not_mem_map_fst_deleteFirst (l : Coll) (k : String)
    (hnd : (l.map Prod.fst).Nodup) : k ∉ (deleteFirst l k).map Prod.fst := by
  induction l with
  | nil => simp [deleteFirst]
  | cons p t ih =>
    obtain ⟨a, d⟩ := p
    simp only [List.map_cons, List.nodup_cons] at hnd
    by_cases h1 : a = k
    · subst h1
      simpa [deleteFirst] using hnd.1
    · simp only [deleteFirst, if_neg h1, List.map_cons, List.mem_cons]
      push_neg
      exact ⟨fun hc => h1 hc.symm, ih hnd.2⟩

/-- Helper: when the company exists, a valid `manage_company_status`
action rewrites its document with `status_map` plus the timestamp. -/
theorem manage_company_status_found (db : DB) (now : Nat) (cid : String) (c : Doc)
    (a : String) (hc : findDoc db.companies cid = some c)
    (ha : a = "verify" ∨ a = "unverify" ∨ a = "block" ∨ a = "unblock") :
    findDoc (manage_company_status db now cid (some a)).2.companies cid
      = some (dsetMany c (status_map a ++ [("updated_at", Val.vNat now)])) := by
  simp only [manage_company_status, if_pos ha, hc]
  simp [updateFirst, findDoc_modifyFirst_self, hc]

/-! ## Claim C1 -/

/-- A company blocked by the admin, then verified. -/
def c1db : DB :=
  { companies := [("co1", [("email", Val.vStr "acme@mail.co"),
                           ("status", Val.vStr "blocked"),
                           ("verified", Val.vBool false)])] }

/-- C1 counterexample: on a blocked company, the admin action `verify`
does not leave `status` unchanged — `status_map` also `$set`s
`status: 'active'`, so the blocked company becomes active. -/
theorem C1_counterexample :
    ((findDoc c1db.companies "co1").bind (fun d => dget d "status")
        = some (Val.vStr "blocked")) ∧
    (manage_company_status c1db 1 "co1" (some "verify")).1.code = 200 ∧
    ((findDoc (manage_company_status c1db 1 "co1" (some "verify")).2.companies "co1").bind
        (fun d => dget d "status") = some (Val.vStr "active")) := by
  refine ⟨rfl, rfl, rfl⟩

/-- C1 (amended): for every existing company, `verify` sets
`verified := true` and `unverify` sets `verified := false`, but both also
force `status := 'active'` (so verification is not orthogonal to status:
a blocked company becomes active); only `block`/`unblock` leave
`verified` unchanged. -/
theorem C1_verify_unverify_force_active (db : DB) (now : Nat) (cid : String) (c : Doc)
    (hc : findDoc db.companies cid = some c) :
    ((findDoc (manage_company_status db now cid (some "verify")).2.companies cid).bind
        (fun d => dget d "status") = some (Val.vStr "active")) ∧
    ((findDoc (manage_company_status db now cid (some "verify")).2.companies cid).bind
        (fun d => dget d "verified") = some (Val.vBool true)) ∧
    ((findDoc (manage_company_status db now cid (some "unverify")).2.companies cid).bind
        (fun d => dget d "status") = some (Val.vStr "active")) ∧
    ((findDoc (manage_company_status db now cid (some "unverify")).2.companies cid).bind
        (fun d => dget d "verified") = some (Val.vBool false)) ∧
    ((findDoc (manage_company_status db now cid (some "block")).2.companies cid).bind
        (fun d => dget d "verified") = dget c "verified") ∧
    ((findDoc (manage_company_status db now cid (some "unblock")).2.companies cid).bind
        (fun d => dget d "verified") = dget c "verified") := by
  have hv := manage_company_status_found db now cid c "verify" hc (Or.inl rfl)
  have hu := manage_company_status_found db now cid c "unverify" hc (Or.inr (Or.inl rfl))
  have hb := manage_company_status_found db now cid c "block" hc (Or.inr (Or.inr (Or.inl rfl)))
  have hn := manage_company_status_found db now cid c "unblock" hc (Or.inr (Or.inr (Or.inr rfl)))
  rw [hv, hu, hb, hn]
  simp [status_map, dsetMany, dget_dset_self, dget_dset_ne]

/-- Witness for C1: the amended statement evaluated on `c1db`. -/
theorem C1_witness :
    ((findDoc (manage_company_status c1db 1 "co1" (some "verify")).2.companies "co1").bind
        (fun d => dget d "status") = some (Val.vStr "active")) ∧
    ((findDoc (manage_company_status c1db 1 "co1" (some "verify")).2.companies "co1").bind
        (fun d => dget d "verified") = some (Val.vBool true)) := by
  have h := C1_verify_unverify_force_active c1db 1 "co1"
    [("email", Val.vStr "acme@mail.co"), ("status", Val.vStr "blocked"),
     ("verified", Val.vBool false)] rfl
  exact ⟨h.1, h.2.1⟩

/-! ## Claim C2 -/

/-- A candidate still awaiting approval. -/
def c2db : DB := { candidates := [("c1", [("status", Val.vStr "pending")])] }

/-- C2 counterexample: the admin action `block` on a *pending* candidate
succeeds and moves `status` from `pending` straight to `blocked` — an
edge not in §4.1 (which only allows active↔blocked for block/unblock). -/
theorem C2_counterexample :
    ((findDoc c2db.candidates "c1").bind (fun d => dget d "status")
        = some (Val.vStr "pending")) ∧
    (manage_candidate_status none c2db 3 "c1" (some "block")).1.code = 200 ∧
    ((findDoc (manage_candidate_status none c2db 3 "c1" (some "block")).2.candidates "c1").bind
        (fun d => dget d "status") = some (Val.vStr "blocked")) := by
  refine ⟨rfl, rfl, rfl⟩

/-- C2 (amended): an action outside the allowed set is indeed rejected
with HTTP 400 and the database is unchanged, but the status-management
routes do not restrict transitions to the §4.1 edges: `block` sets
`status := 'blocked'` and `unblock` sets `status := 'active'`
unconditionally, whatever the current status (e.g. pending→blocked and
rejected→active are reachable). -/
theorem C2_status_set_unconditionally (db : DB) (now : Nat) (cid : String) (a : String) :
    (a ≠ "block" → a ≠ "unblock" →
      manage_candidate_status none db now cid (some a)
        = (errResp 400 "Invalid action. Use \x27block\x27 or \x27unblock\x27", db)) ∧
    (a ≠ "verify" → a ≠ "unverify" → a ≠ "block" → a ≠ "unblock" →
      manage_company_status db now cid (some a)
        = (errResp 400 "Invalid action. Use one of: verify, unverify, block, unblock", db)) ∧
    (∀ c, findDoc db.candidates cid = some c →
      ((findDoc (manage_candidate_status none db now cid (some "block")).2.candidates cid).bind
          (fun d => dget d "status") = some (Val.vStr "blocked")) ∧
      ((findDoc (manage_candidate_status none db now cid (some "unblock")).2.candidates cid).bind
          (fun d => dget d "status") = some (Val.vStr "active"))) := by
  refine ⟨fun h1 h2 => ?_, fun h1 h2 h3 h4 => ?_, fun c hc => ?_⟩
  · simp [manage_candidate_status, h1, h2]
  · simp [manage_company_status, h1, h2, h3, h4]
  · constructor
    · simp only [manage_candidate_status, hc]
      simp [updateFirst, findDoc_modifyFirst_self, hc, dsetMany, dget_dset_self, dget_dset_ne]
    · simp only [manage_candidate_status, hc]
      simp [updateFirst, findDoc_modifyFirst_self, hc, dsetMany, dget_dset_self, dget_dset_ne]

/-- Witness for C2: on `c2db`, the invalid action `promote` is rejected
with 400 and no change, and `block` on the pending candidate yields
status `blocked`. -/
theorem C2_witness :
    (manage_candidate_status none c2db 3 "c1" (some "promote")
        = (errResp 400 "Invalid action. Use \x27block\x27 or \x27unblock\x27", c2db)) ∧
    ((findDoc (manage_candidate_status none c2db 3 "c1" (some "block")).2.candidates "c1").bind
        (fun d => dget d "status") = some (Val.vStr "blocked")) := by
  have h := C2_status_set_unconditionally c2db 3 "c1" "promote"
  have h2 := C2_status_set_unconditionally c2db 3 "c1" "block"
  exact ⟨h.1 (by decide) (by decide),
         (h2.2.2 [("status", Val.vStr "pending")] rfl).1⟩

/-! ## Claim C3 -/

/-- Helper: every key of the update document actually `$set` by the
profile-update handlers comes from the request body or is `updated_at`. -/
theorem keys_ne_of_body (n : Nat) (body : Doc) (f : String → String) (k : String)
    (h : ∀ p ∈ body, p.1 ≠ k) (hk : ("updated_at" : String) ≠ k) :
    ∀ p ∈ stripProtected (sanitizeDoc f body) ++ [("updated_at", Val.vNat n)], p.1 ≠ k := by
  intro p hp
  rcases List.mem_append.mp hp with hp | hp
  · have hp2 := List.mem_of_mem_filter hp
    rcases List.mem_map.mp hp2 with ⟨q, hq, rfl⟩
    exact h q hq
  · simp only [List.mem_singleton] at hp
    subst hp
    exact hk

/-- Helper: same, without the timestamp (the company JSON branch). -/
theorem keys_ne_of_body_company (body : Doc) (f : String → String) (k : String)
    (h : ∀ p ∈ body, p.1 ≠ k) :
    ∀ p ∈ stripProtected (sanitizeDoc f body), p.1 ≠ k := by
  intro p hp
  have hp2 := List.mem_of_mem_filter hp
  rcases List.mem_map.mp hp2 with ⟨q, hq, rfl⟩
  exact h q hq

/-- A pending candidate and a pending, unverified company. -/
def c3db : DB :=
  { candidates := [("c1", [("email", Val.vStr "alice@mail.co"),
                           ("status", Val.vStr "pending")])],
    companies := [("k1", [("email", Val.vStr "acme@mail.co"),
                          ("status", Val.vStr "pending"),
                          ("verified", Val.vBool false)])] }

/-- C3 counterexample: the profile-update handlers pop only `email`,
`password`, `_id`, `created_at`, `updated_at` before the `$set`, so a
request body containing `status` (resp. `verified`) overwrites the
stored field: a pending candidate self-activates, and a company can set
its own `verified` flag. -/
theorem C3_counterexample :
    ((findDoc c3db.candidates "c1").bind (fun d => dget d "status")
        = some (Val.vStr "pending")) ∧
    (update_candidate_profile c3db 7 "c1"
        [("bio", Val.vStr "hi"), ("status", Val.vStr "active")]).1.code = 200 ∧
    ((findDoc (update_candidate_profile c3db 7 "c1"
          [("bio", Val.vStr "hi"), ("status", Val.vStr "active")]).2.candidates "c1").bind
        (fun d => dget d "status") = some (Val.vStr "active")) ∧
    (update_company_profile c3db "k1"
        [("status", Val.vStr "active"), ("verified", Val.vBool true)]).1.code = 200 ∧
    ((findDoc (update_company_profile c3db "k1"
          [("status", Val.vStr "active"), ("verified", Val.vBool true)]).2.companies "k1").bind
        (fun d => dget d "status") = some (Val.vStr "active")) ∧
    ((findDoc (update_company_profile c3db "k1"
          [("status", Val.vStr "active"), ("verified", Val.vBool true)]).2.companies "k1").bind
        (fun d => dget d "verified") = some (Val.vBool true)) := by
  refine ⟨rfl, rfl, rfl, rfl, rfl, rfl⟩

/-- C3 (amended): the stored `status` (and `verified`) survive a profile
update only when the request body does not mention them; the handlers
strip exactly `email`, `password`, `_id`, `created_at`, `updated_at`,
and any other body field — including `status`/`verified` — is written
verbatim. -/
theorem C3_profile_update_frame (db : DB) (now : Nat) (uid : String) (body : Doc)
    (hs : ∀ p ∈ body, p.1 ≠ "status") (hv : ∀ p ∈ body, p.1 ≠ "verified") :
    ((findDoc (update_candidate_profile db now uid body).2.candidates uid).bind
        (fun d => dget d "status")
      = (findDoc db.candidates uid).bind (fun d => dget d "status")) ∧
    ((findDoc (update_company_profile db uid body).2.companies uid).bind
        (fun d => dget d "status")
      = (findDoc db.companies uid).bind (fun d => dget d "status")) ∧
    ((findDoc (update_company_profile db uid body).2.companies uid).bind
        (fun d => dget d "verified")
      = (findDoc db.companies uid).bind (fun d => dget d "verified")) := by
  by_cases hb : body = []
  · subst hb
    simp [update_candidate_profile, update_company_profile]
  · have hcand : (update_candidate_profile db now uid body).2.candidates
        = updateFirst db.candidates uid
            (stripProtected (sanitizeDoc bleachClean body) ++ [("updated_at", Val.vNat now)]) := by
      simp only [update_candidate_profile, if_neg hb]
      split <;> rfl
    have hco : (update_company_profile db uid body).2.companies
        = updateFirst db.companies uid (stripProtected (sanitizeDoc pyStrip body)) := by
      simp only [update_company_profile, if_neg hb]
      split <;> rfl
    refine ⟨?_, ?_, ?_⟩
    · rw [hcand, updateFirst, findDoc_modifyFirst_self]
      cases hf : findDoc db.candidates uid with
      | none => rfl
      | some c =>
        simpa using dget_dsetMany_notMem c _ "status"
          (keys_ne_of_body now body bleachClean "status" hs (by decide))
    · rw [hco, updateFirst, findDoc_modifyFirst_self]
      cases hf : findDoc db.companies uid with
      | none => rfl
      | some c =>
        simpa using dget_dsetMany_notMem c _ "status"
          (keys_ne_of_body_company body pyStrip "status" hs)
    · rw [hco, updateFirst, findDoc_modifyFirst_self]
      cases hf : findDoc db.companies uid with
      | none => rfl
      | some c =>
        simpa using dget_dsetMany_notMem c _ "verified"
          (keys_ne_of_body_company body pyStrip "verified" hv)

/-- Witness for C3: a body that does not mention `status`/`verified`
leaves them unchanged on `c3db`. -/
theorem C3_witness :
    ((findDoc (update_candidate_profile c3db 7 "c1" [("bio", Val.vStr "hi")]).2.candidates "c1").bind
        (fun d => dget d "status")
      = (findDoc c3db.candidates "c1").bind (fun d => dget d "status")) ∧
    ((findDoc (update_company_profile c3db "k1" [("bio", Val.vStr "hi")]).2.companies "k1").bind
        (fun d => dget d "verified")
      = (findDoc c3db.companies "k1").bind (fun d => dget d "verified")) := by
  have h := C3_profile_update_frame c3db 7 "c1" [("bio", Val.vStr "hi")]
    (by decide) (by decide)
  have h2 := C3_profile_update_frame c3db 7 "k1" [("bio", Val.vStr "hi")]
    (by decide) (by decide)
  exact ⟨h.1, h2.2.2⟩

/-! ## Claim C4 -/

/-- Helper: an id absent from the notification keys is absent from the
pending inbox (which is a filter of the collection). -/
theorem not_mem_pending_of_not_mem_fst (l : Coll) (k : String)
    (h : k ∉ l.map Prod.fst) :
    k ∉ (l.filter (fun p => pendingFilter p.2)).map Prod.fst := by
  intro hc
  rcases List.mem_map.mp hc with ⟨p, hp, rfl⟩
  exact h (List.mem_map.mpr ⟨p, List.mem_of_mem_filter hp, rfl⟩)

/-- C4: approving a `candidate_registration` notification of an existing
pending candidate answers 200, sets the candidate's `status` to
`active`, removes the notification from the pending inbox, and a second
approve of the same id answers 404 without further state change. -/
theorem C4_approve_resolves_once (db : DB) (now now2 : Nat) (nid cid : String) (n c : Doc)
    (hnd : (db.notifications.map Prod.fst).Nodup)
    (hn : findDoc db.notifications nid = some n)
    (ht : dget n "type" = some (Val.vStr "candidate_registration"))
    (hcid : dget n "candidate_id" = some (Val.vStr cid))
    (hcne : cid ≠ "")
    (hc : findDoc db.candidates cid = some c)
    (hst : dget c "status" = some (Val.vStr "pending")) :
    (approve_notification db now nid).1.code = 200 ∧
    ((findDoc (approve_notification db now nid).2.candidates cid).bind
        (fun d => dget d "status") = some (Val.vStr "active")) ∧
    nid ∉ get_admin_notifications (approve_notification db now nid).2 ∧
    (approve_notification (approve_notification db now nid).2 now2 nid).1
        = errResp 404 "Notification non trouvée." ∧
    (approve_notification (approve_notification db now nid).2 now2 nid).2
        = (approve_notification db now nid).2 := by
  have htype : getStrD n "type" "" = "candidate_registration" := by
    simp [getStrD, ht]
  have htr : truthyStr (dget n "candidate_id") = some cid := by
    simp [truthyStr, hcid, hcne]
  have hu : dsetMany c [("status", Val.vStr "active"), ("updated_at", Val.vNat now)] ≠ c := by
    intro he
    have h1 : dget (dsetMany c
        [("status", Val.vStr "active"), ("updated_at", Val.vNat now)]) "status"
        = some (Val.vStr "active") := by
      simp [dsetMany, dget_dset_self, dget_dset_ne]
    rw [he, hst] at h1
    simp at h1
  have hmc : modifiedCount db.candidates cid
      [("status", Val.vStr "active"), ("updated_at", Val.vNat now)] = 1 := by
    simp [modifiedCount, hc, hu]
  have happ : approve_notification db now nid
      = (okResp 200 "Candidat approuvé avec succès",
         { db with
           candidates := (updateFirst db.candidates cid
             [("status", Val.vStr "active"), ("updated_at", Val.vNat now)]),
           notifications := deleteFirst db.notifications nid }) := by
    simp [approve_notification, hn, htype, htr, hmc]
  have hnotmem : nid ∉ (deleteFirst db.notifications nid).map Prod.fst :=
    not_mem_map_fst_deleteFirst db.notifications nid hnd
  have hfn : findDoc (deleteFirst db.notifications nid) nid = none :=
    findDoc_eq_none_of_not_mem _ _ hnotmem
  have hfn2 : findDoc (approve_notification db now nid).2.notifications nid = none := by
    rw [happ]
    exact hfn
  have hsecond : approve_notification (approve_notification db now nid).2 now2 nid
      = (errResp 404 "Notification non trouvée.", (approve_notification db now nid).2) := by
    generalize (approve_notification db now nid).2 = db1 at hfn2 ⊢
    simp [approve_notification, hfn2]
  refine ⟨by rw [happ]; rfl, ?_, ?_, by rw [hsecond], by rw [hsecond]⟩
  · rw [happ]
    show ((findDoc (updateFirst db.candidates cid
        [("status", Val.vStr "active"), ("updated_at", Val.vNat now)]) cid).bind
        (fun d => dget d "status")) = some (Val.vStr "active")
    rw [updateFirst, findDoc_modifyFirst_self, hc]
    simp [dsetMany, dget_dset_self, dget_dset_ne]
  · rw [happ]
    exact not_mem_pending_of_not_mem_fst _ _ hnotmem

/-- A pending candidate Alice and her registration notification. -/
def c4db : DB :=
  { candidates := [("cand1", [("email", Val.vStr "alice@mail.co"),
                              ("status", Val.vStr "pending")])],
    notifications := [("n1", [("type", Val.vStr "candidate_registration"),
                              ("candidate_id", Val.vStr "cand1"),
                              ("unread", Val.vBool true)])] }

/-- Witness for C4 on `c4db`. -/
theorem C4_witness :
    (approve_notification c4db 5 "n1").1.code = 200 ∧
    ((findDoc (approve_notification c4db 5 "n1").2.candidates "cand1").bind
        (fun d => dget d "status") = some (Val.vStr "active")) ∧
    "n1" ∉ get_admin_notifications (approve_notification c4db 5 "n1").2 ∧
    (approve_notification (approve_notification c4db 5 "n1").2 6 "n1").1
        = errResp 404 "Notification non trouvée." := by
  have h := C4_approve_resolves_once c4db 5 6 "n1" "cand1"
    [("type", Val.vStr "candidate_registration"), ("candidate_id", Val.vStr "cand1"),
     ("unread", Val.vBool true)]
    [("email", Val.vStr "alice@mail.co"), ("status", Val.vStr "pending")]
    (by decide) rfl rfl rfl (by decide) rfl rfl
  exact ⟨h.1, h.2.1, h.2.2.1, h.2.2.2.1⟩

/-! ## Claim C5 -/

/-- One active job with no applications yet. -/
def c5db : DB :=
  { jobs := [("j1", [("job_title", Val.vStr "dev"),
                     ("company_id", Val.vStr "k1"),
                     ("status", Val.vStr "active"),
                     ("applicants", Val.vList [])])] }

/-- C5: applying to an existing job a candidate has not applied to
succeeds and leaves exactly one entry for that candidate; the second
call with the same pair fails with the 400 duplicate-application error
(Conflict class in the spec's taxonomy) and changes nothing; applying to
a non-existent job id answers 404 with no change. -/
theorem C5_apply_idempotent (db : DB) (jid jid2 cid : String) (j : Doc)
    (hj : findDoc db.jobs jid = some j)
    (happ : dget j "applications" = none ∨
            ∃ l, dget j "applications" = some (Val.vList l) ∧ cid ∉ l)
    (hcne : cid ≠ "")
    (hmiss : findDoc db.jobs jid2 = none) :
    (apply_to_job none db jid (some cid)).1.code = 200 ∧
    ((findDoc (apply_to_job none db jid (some cid)).2.jobs jid).map
        (fun d => (getListD d "applications").count cid) = some 1) ∧
    (apply_to_job none (apply_to_job none db jid (some cid)).2 jid (some cid)).1
        = errResp 400 "Candidature déjà envoyée." ∧
    (apply_to_job none (apply_to_job none db jid (some cid)).2 jid (some cid)).2
        = (apply_to_job none db jid (some cid)).2 ∧
    apply_to_job none db jid2 (some cid) = (errResp 404 "Offre non trouvée.", db) := by
  have hnotin : cid ∉ getListD j "applications" := by
    rcases happ with h | ⟨l, hl, hnl⟩
    · simp [getListD, h]
    · simp [getListD, hl, hnl]
  have hfirst : apply_to_job none db jid (some cid)
      = (okResp 200 "Candidature envoyée avec succès.",
         { db with jobs := modifyFirst db.jobs jid (fun d => addToSet d "applications" cid) }) := by
    simp [apply_to_job, hcne, hj, hnotin]
  have hnew : ∃ l2, dget (addToSet j "applications" cid) "applications"
      = some (Val.vList l2) ∧ l2.count cid = 1 := by
    rcases happ with h | ⟨l, hl, hnl⟩
    · exact ⟨[cid], by simp [addToSet, h, dget_dset_self], by simp⟩
    · refine ⟨l ++ [cid], by simp [addToSet, hl, hnl, dget_dset_self], ?_⟩
      simp [List.count_append, List.count_eq_zero.mpr hnl]
  rcases hnew with ⟨l2, hl2, hcnt⟩
  have hfind2 : findDoc (apply_to_job none db jid (some cid)).2.jobs jid
      = some (addToSet j "applications" cid) := by
    rw [hfirst]
    show findDoc (modifyFirst db.jobs jid (fun d => addToSet d "applications" cid)) jid
        = some (addToSet j "applications" cid)
    rw [findDoc_modifyFirst_self, hj]
    rfl
  have hmem2 : cid ∈ getListD (addToSet j "applications" cid) "applications" := by
    simp only [getListD, hl2]
    exact List.count_pos_iff.mp (by omega)
  have hsecond : apply_to_job none (apply_to_job none db jid (some cid)).2 jid (some cid)
      = (errResp 400 "Candidature déjà envoyée.", (apply_to_job none db jid (some cid)).2) := by
    generalize (apply_to_job none db jid (some cid)).2 = db1 at hfind2 ⊢
    simp [apply_to_job, hcne, hfind2, hmem2]
  refine ⟨by rw [hfirst]; rfl, ?_, by rw [hsecond], by rw [hsecond], ?_⟩
  · rw [hfind2]
    simp [getListD, hl2, hcnt]
  · simp [apply_to_job, hcne, hmiss]

/-- Witness for C5 on `c5db`: job `j1` exists, `jX` does not. -/
theorem C5_witness :
    (apply_to_job none c5db "j1" (some "cand9")).1.code = 200 ∧
    ((findDoc (apply_to_job none c5db "j1" (some "cand9")).2.jobs "j1").map
        (fun d => (getListD d "applications").count "cand9") = some 1) ∧
    (apply_to_job none (apply_to_job none c5db "j1" (some "cand9")).2 "j1" (some "cand9")).1
        = errResp 400 "Candidature déjà envoyée." ∧
    apply_to_job none c5db "jX" (some "cand9") = (errResp 404 "Offre non trouvée.", c5db) := by
  have h := C5_apply_idempotent c5db "j1" "jX" "cand9"
    [("job_title", Val.vStr "dev"), ("company_id", Val.vStr "k1"),
     ("status", Val.vStr "active"), ("applicants", Val.vList [])]
    rfl (Or.inl rfl) (by decide) rfl
  exact ⟨h.1, h.2.1, h.2.2.1, h.2.2.2.2⟩

/-! ## Claim C6 -/

/-- A candidate-registration notification whose target candidate is
missing from the store. -/
def c6db : DB :=
  { notifications := [("n1", [("type", Val.vStr "candidate_registration"),
                              ("candidate_id", Val.vStr "ghost"),
                              ("unread", Val.vBool true)])] }

/-- C6 counterexample: the target account `ghost` does not exist, yet
`reject` answers 200 (not `NotFound`) and still deletes the notification
— a state change on what the claim calls a failure. -/
theorem C6_counterexample :
    findDoc c6db.candidates "ghost" = none ∧
    (reject_notification c6db 3 "n1").1.code = 200 ∧
    (reject_notification c6db 3 "n1").1.code ≠ 404 ∧
    findDoc (reject_notification c6db 3 "n1").2.notifications "n1" = none := by
  refine ⟨rfl, rfl, by decide, rfl⟩

/-- C6 (amended): both resolutions answer `NotFound` for a missing
notification with no state change.  `approve` checks the target only in
its two registration branches: for `candidate_registration` /
`new_candidate` and for `company_registration` notifications whose
target account is missing, it answers `NotFound` with no state change;
for any other notification type (e.g. `verification_request`) it takes
the generic branch — it deletes the notification and answers 200
without consulting any target.  `reject` never checks the target: with
a missing target account it still deletes the notification and
answers 200. -/
theorem C6_notfound_asymmetric (db : DB) (now : Nat) (nid cid coid : String) (n : Doc) :
    (findDoc db.notifications nid = none →
      approve_notification db now nid = (errResp 404 "Notification non trouvée.", db) ∧
      reject_notification db now nid = (errResp 404 "Notification non trouvée.", db)) ∧
    (findDoc db.notifications nid = some n →
      ((dget n "type" = some (Val.vStr "candidate_registration") ∨
          dget n "type" = some (Val.vStr "new_candidate")) →
        dget n "candidate_id" = some (Val.vStr cid) → cid ≠ "" →
        findDoc db.candidates cid = none →
        approve_notification db now nid = (errResp 404 "Candidat non trouvé.", db)) ∧
      (dget n "type" = some (Val.vStr "company_registration") →
        dget n "company_id" = some (Val.vStr coid) → coid ≠ "" →
        findDoc db.companies coid = none →
        approve_notification db now nid = (errResp 404 "Entreprise non trouvée.", db)) ∧
      (∀ t, dget n "type" = some (Val.vStr t) →
        t ≠ "candidate_registration" → t ≠ "new_candidate" → t ≠ "company_registration" →
        approve_notification db now nid
          = (okResp 200 "Notification approuvée avec succès",
             { db with notifications := deleteFirst db.notifications nid })) ∧
      (dget n "type" = some (Val.vStr "candidate_registration") →
        dget n "candidate_id" = some (Val.vStr cid) → cid ≠ "" →
        findDoc db.candidates cid = none →
        (reject_notification db now nid).1 = okResp 200 "Notification rejetée avec succès" ∧
        (reject_notification db now nid).2.notifications
          = deleteFirst db.notifications nid)) := by
  constructor
  · intro h
    constructor
    · simp [approve_notification, h]
    · simp [reject_notification, h]
  · intro hn
    refine ⟨?_, ?_, ?_, ?_⟩
    · intro ht hcid hcne hc
      have htr : truthyStr (dget n "candidate_id") = some cid := by
        simp [truthyStr, hcid, hcne]
      have hmc : modifiedCount db.candidates cid
          [("status", Val.vStr "active"), ("updated_at", Val.vNat now)] = 0 := by
        simp [modifiedCount, hc]
      have hup : updateFirst db.candidates cid
          [("status", Val.vStr "active"), ("updated_at", Val.vNat now)] = db.candidates :=
        modifyFirst_not_found db.candidates cid _ hc
      rcases ht with ht | ht
      · have htype : getStrD n "type" "" = "candidate_registration" := by
          simp [getStrD, ht]
        simp [approve_notification, hn, htype, htr, hmc, hup]
      · have htype : getStrD n "type" "" = "new_candidate" := by
          simp [getStrD, ht]
        simp [approve_notification, hn, htype, htr, hmc, hup]
    · intro ht hcoid hcone hco
      have htype : getStrD n "type" "" = "company_registration" := by
        simp [getStrD, ht]
      have htr : truthyStr (dget n "company_id") = some coid := by
        simp [truthyStr, hcoid, hcone]
      have hmc : modifiedCount db.companies coid
          [("status", Val.vStr "active"), ("verified", Val.vBool true),
           ("updated_at", Val.vNat now)] = 0 := by
        simp [modifiedCount, hco]
      have hup : updateFirst db.companies coid
          [("status", Val.vStr "active"), ("verified", Val.vBool true),
           ("updated_at", Val.vNat now)] = db.companies :=
        modifyFirst_not_found db.companies coid _ hco
      simp [approve_notification, hn, htype, htr, hmc, hup]
    · intro t ht ht1 ht2 ht3
      have htype : getStrD n "type" "" = t := by
        simp [getStrD, ht]
      simp [approve_notification, hn, htype, ht1, ht2, ht3]
    · intro ht hcid hcne hc
      have htype : getStrD n "type" "" = "candidate_registration" := by
        simp [getStrD, ht]
      have htr : truthyStr (dget n "candidate_id") = some cid := by
        simp [truthyStr, hcid, hcne]
      have hup2 : ∀ u : Doc, updateFirst db.candidates cid u = db.candidates :=
        fun u => modifyFirst_not_found db.candidates cid _ hc
      constructor
      · simp [reject_notification, hn, htype, htr]
      · simp [reject_notification, hn, htype, htr, hup2]

/-- Notifications of all three shapes, each with a missing target: a
candidate registration for `ghost`, a verification request and a
company registration for `gone`. -/
def c6wdb : DB :=
  { notifications := [("n1", [("type", Val.vStr "candidate_registration"),
                              ("candidate_id", Val.vStr "ghost"),
                              ("unread", Val.vBool true)]),
                      ("n2", [("type", Val.vStr "verification_request"),
                              ("company_id", Val.vStr "gone"),
                              ("unread", Val.vBool true)]),
                      ("n3", [("type", Val.vStr "company_registration"),
                              ("company_id", Val.vStr "gone")])] }

/-- Witness for C6 on `c6wdb`: approve answers 404 with no change on the
registration notifications with missing targets, but deletes the
`verification_request` and answers 200 without checking its target, and
reject answers 200 on the candidate registration despite the missing
target. -/
theorem C6_witness :
    approve_notification c6wdb 3 "n1" = (errResp 404 "Candidat non trouvé.", c6wdb) ∧
    approve_notification c6wdb 3 "n3" = (errResp 404 "Entreprise non trouvée.", c6wdb) ∧
    approve_notification c6wdb 3 "n2"
      = (okResp 200 "Notification approuvée avec succès",
         { c6wdb with notifications := deleteFirst c6wdb.notifications "n2" }) ∧
    (reject_notification c6wdb 3 "n1").1 = okResp 200 "Notification rejetée avec succès" := by
  have h1 := (C6_notfound_asymmetric c6wdb 3 "n1" "ghost" "x"
      [("type", Val.vStr "candidate_registration"), ("candidate_id", Val.vStr "ghost"),
       ("unread", Val.vBool true)]).2 rfl
  have h2 := (C6_notfound_asymmetric c6wdb 3 "n3" "x" "gone"
      [("type", Val.vStr "company_registration"), ("company_id", Val.vStr "gone")]).2 rfl
  have h3 := (C6_notfound_asymmetric c6wdb 3 "n2" "x" "x"
      [("type", Val.vStr "verification_request"), ("company_id", Val.vStr "gone"),
       ("unread", Val.vBool true)]).2 rfl
  exact ⟨h1.1 (Or.inl rfl) rfl (by decide) rfl,
         h2.2.1 rfl rfl (by decide) rfl,
         h3.2.2.1 "verification_request" rfl (by decide) (by decide) (by decide),
         (h1.2.2.2 rfl rfl (by decide) rfl).1⟩

/-! ## Claim C7 -/

/-- An unverified pending company with an unread verification request in
the inbox. -/
def c7db : DB :=
  { companies := [("co1", [("company_name", Val.vStr "Acme"),
                           ("email", Val.vStr "acme@mail.co"),
                           ("status", Val.vStr "pending"),
                           ("verified", Val.vBool false)])],
    notifications := [("n1", [("type", Val.vStr "verification_request"),
                              ("company_id", Val.vStr "co1"),
                              ("unread", Val.vBool true)])] }

/-- C7 counterexample: the duplicate guard does answer the second
request with the already-pending error, but after the admin `verify`
action (`verified = true`) a new verification request is NOT accepted
again — it is rejected with the already-verified error and no
notification is enqueued. -/
theorem C7_counterexample :
    (request_verification c7db 6 "n2" "co1").1
        = errResp 400 "Demande de vérification déjà en cours." ∧
    ((findDoc (manage_company_status c7db 5 "co1" (some "verify")).2.companies "co1").bind
        (fun d => dget d "verified") = some (Val.vBool true)) ∧
    request_verification (manage_company_status c7db 5 "co1" (some "verify")).2 6 "n2" "co1"
        = (errResp 400 "Entreprise déjà vérifiée.",
           (manage_company_status c7db 5 "co1" (some "verify")).2) := by
  refine ⟨rfl, rfl, rfl⟩

/-- C7 (amended): for an existing company, a request while unverified
with an unread `verification_request` pending answers the 400
already-pending error with no state change; a request while
`verified = true` answers the 400 already-verified error with no state
change; and the admin `verify` action results in `verified = true` — so
after `verify` a new request is rejected, not accepted. -/
theorem C7_request_verification_guards (db : DB) (now : Nat) (newId uid : String) (c : Doc)
    (hc : findDoc db.companies uid = some c) :
    (truthyOpt (dget c "verified") = false →
      (findPendingVerif db.notifications uid).isSome = true →
      request_verification db now newId uid
        = (errResp 400 "Demande de vérification déjà en cours.", db)) ∧
    (dget c "verified" = some (Val.vBool true) →
      request_verification db now newId uid
        = (errResp 400 "Entreprise déjà vérifiée.", db)) ∧
    ((findDoc (manage_company_status db now uid (some "verify")).2.companies uid).bind
        (fun d => dget d "verified") = some (Val.vBool true)) := by
  refine ⟨fun hv hp => ?_, fun hv => ?_, ?_⟩
  · simp [request_verification, hc, hv, hp]
  · simp [request_verification, hc, hv, truthyOpt, truthy]
  · rw [manage_company_status_found db now uid c "verify" hc (Or.inl rfl)]
    simp [status_map, dsetMany, dget_dset_self, dget_dset_ne]

/-- Witness for C7 on `c7db`. -/
theorem C7_witness :
    request_verification c7db 6 "n2" "co1"
      = (errResp 400 "Demande de vérification déjà en cours.", c7db) := by
  have h := C7_request_verification_guards c7db 6 "n2" "co1"
    [("company_name", Val.vStr "Acme"), ("email", Val.vStr "acme@mail.co"),
     ("status", Val.vStr "pending"), ("verified", Val.vBool false)] rfl
  exact h.1 rfl rfl

/-! ## Claim C8 -/

/-- Helper: every bulk-approve iteration produces the result entry for
its own id, tagged `approved` or `failed` consistently with its flag. -/
theorem bulkApproveItem_shape (now : Nat) (excOf : String → Option String)
    (db : DB) (nid : String) :
    (bulkApproveItem now excOf db nid).2.1.nid = nid ∧
    ((bulkApproveItem now excOf db nid).2.1.st = "approved" ∨
     (bulkApproveItem now excOf db nid).2.1.st = "failed") := by
  unfold bulkApproveItem
  rcases excOf nid with _ | m
  · rcases h : findDoc db.notifications nid with _ | n <;> simp [h]
  · simp

/-- Helper: same for the bulk-reject iteration. -/
theorem bulkRejectItem_shape (now : Nat) (excOf : String → Option String)
    (db : DB) (nid : String) :
    (bulkRejectItem now excOf db nid).2.1.nid = nid ∧
    ((bulkRejectItem now excOf db nid).2.1.st = "rejected" ∨
     (bulkRejectItem now excOf db nid).2.1.st = "failed") := by
  unfold bulkRejectItem
  rcases excOf nid with _ | m
  · rcases h : findDoc db.notifications nid with _ | n <;> simp [h]
  · simp

/-- Helper: the bulk-approve loop yields one result per submitted id
(in order), and its success and failure counters sum to the number of
ids — an individual failure never aborts the rest of the batch. -/
theorem bulkApproveGo_spec (now : Nat) (excOf : String → Option String) :
    ∀ (ids : List String) (db : DB),
      ((bulkApproveGo now excOf db ids).results.map ItemResult.nid = ids) ∧
      ((bulkApproveGo now excOf db ids).okCount
          + (bulkApproveGo now excOf db ids).failCount = ids.length) ∧
      (∀ r ∈ (bulkApproveGo now excOf db ids).results,
        r.st = "approved" ∨ r.st = "failed") := by
  intro ids
  induction ids with
  | nil => intro db; refine ⟨rfl, rfl, by intro r hr; simp [bulkApproveGo] at hr⟩
  | cons nid rest ih =>
    intro db
    have hsh := bulkApproveItem_shape now excOf db nid
    have hrec := ih (bulkApproveItem now excOf db nid).1
    refine ⟨?_, ?_, ?_⟩
    · simp only [bulkApproveGo, List.map_cons]
      rw [hsh.1, hrec.1]
    · simp only [bulkApproveGo]
      rcases h : (bulkApproveItem now excOf db nid).2.2 <;>
        simp [h, List.length_cons] <;> omega
    · intro r hr
      simp only [bulkApproveGo, List.mem_cons] at hr
      rcases hr with hr | hr
      · rw [hr]; exact hsh.2
      · exact hrec.2.2 r hr

/-- Helper: same for the bulk-reject loop. -/
theorem bulkRejectGo_spec (now : Nat) (excOf : String → Option String) :
    ∀ (ids : List String) (db : DB),
      ((bulkRejectGo now excOf db ids).results.map ItemResult.nid = ids) ∧
      ((bulkRejectGo now excOf db ids).okCount
          + (bulkRejectGo now excOf db ids).failCount = ids.length) ∧
      (∀ r ∈ (bulkRejectGo now excOf db ids).results,
        r.st = "rejected" ∨ r.st = "failed") := by
  intro ids
  induction ids with
  | nil => intro db; refine ⟨rfl, rfl, by intro r hr; simp [bulkRejectGo] at hr⟩
  | cons nid rest ih =>
    intro db
    have hsh := bulkRejectItem_shape now excOf db nid
    have hrec := ih (bulkRejectItem now excOf db nid).1
    refine ⟨?_, ?_, ?_⟩
    · simp only [bulkRejectGo, List.map_cons]
      rw [hsh.1, hrec.1]
    · simp only [bulkRejectGo]
      rcases h : (bulkRejectItem now excOf db nid).2.2 <;>
        simp [h, List.length_cons] <;> omega
    · intro r hr
      simp only [bulkRejectGo, List.mem_cons] at hr
      rcases hr with hr | hr
      · rw [hr]; exact hsh.2
      · exact hrec.2.2 r hr

/-- C8 counterexample: for the empty id list both bulk routes answer the
400 error body, which carries no per-id result list and no aggregate
counts — so the claim, quantified over *every* list of ids, fails at
`[]`. -/
theorem C8_counterexample :
    bulk_approve_notifications ({} : DB) 0 (fun _ => none) []
      = (BulkResp.failure 400 "Aucune notification sélectionnée.", ({} : DB)) ∧
    bulk_reject_notifications ({} : DB) 0 (fun _ => none) []
      = (BulkResp.failure 400 "Aucune notification sélectionnée.", ({} : DB)) :=
  ⟨rfl, rfl⟩

/-- C8 (amended): for every *non-empty* id list, the bulk routes answer
a success body whose per-id results cover exactly the submitted ids in
order — processing continues past individual failures — with each entry
tagged approved/rejected or failed, and the success and failure counts
summing to the number of ids; the empty list is instead rejected with a
400 error body that carries no results and no counts. -/
theorem C8_bulk_partial_failure (db : DB) (now : Nat)
    (excOf : String → Option String) (ids : List String) (hne : ids ≠ []) :
    (∃ a f rs, bulk_approve_notifications db now excOf ids
        = (BulkResp.success a f rs, (bulkApproveGo now excOf db ids).db) ∧
      rs.map ItemResult.nid = ids ∧ a + f = ids.length ∧
      ∀ r ∈ rs, r.st = "approved" ∨ r.st = "failed") ∧
    (∃ a f rs, bulk_reject_notifications db now excOf ids
        = (BulkResp.success a f rs, (bulkRejectGo now excOf db ids).db) ∧
      rs.map ItemResult.nid = ids ∧ a + f = ids.length ∧
      ∀ r ∈ rs, r.st = "rejected" ∨ r.st = "failed") := by
  have hne2 : ids.isEmpty = false := by
    cases ids with
    | nil => exact absurd rfl hne
    | cons a t => rfl
  constructor
  · refine ⟨(bulkApproveGo now excOf db ids).okCount,
      (bulkApproveGo now excOf db ids).failCount,
      (bulkApproveGo now excOf db ids).results, ?_, ?_, ?_, ?_⟩
    · simp [bulk_approve_notifications, hne2]
    · exact (bulkApproveGo_spec now excOf ids db).1
    · exact (bulkApproveGo_spec now excOf ids db).2.1
    · exact (bulkApproveGo_spec now excOf ids db).2.2
  · refine ⟨(bulkRejectGo now excOf db ids).okCount,
      (bulkRejectGo now excOf db ids).failCount,
      (bulkRejectGo now excOf db ids).results, ?_, ?_, ?_, ?_⟩
    · simp [bulk_reject_notifications, hne2]
    · exact (bulkRejectGo_spec now excOf ids db).1
    · exact (bulkRejectGo_spec now excOf ids db).2.1
    · exact (bulkRejectGo_spec now excOf ids db).2.2

/-- A registration notification plus an id that raises in the store. -/
def c8db : DB :=
  { candidates := [("cand1", [("email", Val.vStr "alice@mail.co"),
                              ("status", Val.vStr "pending")])],
    notifications := [("n1", [("type", Val.vStr "candidate_registration"),
                              ("candidate_id", Val.vStr "cand1")])] }

/-- The per-id exception oracle of the C8 witness: the malformed id
`bad` makes `ObjectId(...)` raise inside the per-item `try`. -/
def c8exc : String → Option String :=
  fun s => if s = "bad" then some "InvalidId: bad is not a valid ObjectId" else none

/-- Witness for C8: three ids — one approvable, one missing, one
raising — all appear in the results and the counts sum to 3. -/
theorem C8_witness :
    (∃ a f rs, bulk_approve_notifications c8db 1 c8exc ["n1", "nX", "bad"]
        = (BulkResp.success a f rs, (bulkApproveGo 1 c8exc c8db ["n1", "nX", "bad"]).db) ∧
      rs.map ItemResult.nid = ["n1", "nX", "bad"] ∧ a + f = (["n1", "nX", "bad"] : List String).length ∧
      ∀ r ∈ rs, r.st = "approved" ∨ r.st = "failed") :=
  (C8_bulk_partial_failure c8db 1 c8exc ["n1", "nX", "bad"] (by decide)).1

/-! ## Claim C9 -/

/-- C9 counterexample: a store exception inside `apply_to_job` is
answered with the exception's own text in the response body — not a
fixed generic message. -/
theorem C9_counterexample :
    (apply_to_job (some "ServerSelectionTimeoutError: mongo:27017 timed out")
        ({} : DB) "j1" (some "c1")).1
      = errResp 500 "ServerSelectionTimeoutError: mongo:27017 timed out" := rfl

/-- C9 (amended): the admin routes do catch store exceptions and answer
a fixed generic message, but the job routes return `str(e)` itself in
the error body, and the bulk loops embed the per-item `str(e)` in their
results — internal exception detail can reach the client. -/
theorem C9_exception_text_leaks (db : DB) (now : Nat) (jid cid nid : String)
    (m : String) (a : Option String) :
    (apply_to_job (some m) db jid (some cid)).1 = errResp 500 m ∧
    (apply_to_job (some m) db jid (some cid)).2 = db ∧
    (manage_candidate_status (some m) db now nid a).1
      = errResp 500 "An unexpected error occurred" ∧
    (bulkApproveItem now (fun _ => some m) db nid).2.1
      = ⟨nid, "failed", some m⟩ := by
  refine ⟨rfl, rfl, rfl, rfl⟩

/-! ## Claim C10 -/

/-- C10: `login` issues a token to any candidate (or, when no candidate
matches the email, any company) whose email matches and whose password
hash checks out; the surrounding document — in particular its `status`
and `verified` fields — is arbitrary and never consulted. -/
theorem C10_login_ignores_status (db : DB) (chk : String → String → Bool)
    (email pw cid coid : String) (c co : Doc)
    (he : email ≠ "") (hp : pw ≠ "") (hv : validate_email email = true) :
    (findByEmail db.candidates email = some (cid, c) →
      chk (getStrD c "password" "") pw = true →
      login db chk email pw = LoginResult.token "candidate" cid) ∧
    (findByEmail db.candidates email = none →
      findByEmail db.companies email = some (coid, co) →
      chk (getStrD co "password" "") pw = true →
      login db chk email pw = LoginResult.token "company" coid) := by
  constructor
  · intro hf hchk
    simp [login, he, hp, hv, hf, hchk]
  · intro hf hco hchk
    simp [login, login.loginCompanyAdmin, he, hp, hv, hf, hco, hchk]

/-- A blocked candidate and a pending unverified company, both with
stored password hashes. -/
def c10db : DB :=
  { candidates := [("u1", [("email", Val.vStr "bob@mail.co"),
                           ("password", Val.vStr "pbkdf2-hash-1"),
                           ("status", Val.vStr "blocked")])],
    companies := [("k1", [("email", Val.vStr "acme@mail.co"),
                          ("password", Val.vStr "pbkdf2-hash-2"),
                          ("status", Val.vStr "pending"),
                          ("verified", Val.vBool false)])] }

/-- Witness for C10: the blocked candidate and the pending unverified
company both receive tokens. -/
theorem C10_witness :
    login c10db (fun h p => h == p) "bob@mail.co" "pbkdf2-hash-1"
      = LoginResult.token "candidate" "u1" ∧
    login c10db (fun h p => h == p) "acme@mail.co" "pbkdf2-hash-2"
      = LoginResult.token "company" "k1" := by
  have h1 := C10_login_ignores_status c10db (fun h p => h == p)
    "bob@mail.co" "pbkdf2-hash-1" "u1" "k1"
    [("email", Val.vStr "bob@mail.co"), ("password", Val.vStr "pbkdf2-hash-1"),
     ("status", Val.vStr "blocked")]
    [("email", Val.vStr "acme@mail.co"), ("password", Val.vStr "pbkdf2-hash-2"),
     ("status", Val.vStr "pending"), ("verified", Val.vBool false)]
    (by decide) (by decide) (by decide)
  have h2 := C10_login_ignores_status c10db (fun h p => h == p)
    "acme@mail.co" "pbkdf2-hash-2" "u1" "k1"
    [("email", Val.vStr "bob@mail.co"), ("password", Val.vStr "pbkdf2-hash-1"),
     ("status", Val.vStr "blocked")]
    [("email", Val.vStr "acme@mail.co"), ("password", Val.vStr "pbkdf2-hash-2"),
     ("status", Val.vStr "pending"), ("verified", Val.vBool false)]
    (by decide) (by decide) (by decide)
  exact ⟨h1.1 rfl (by decide), h2.2 rfl rfl (by decide)⟩

end Growcoach
